import Mathlib

set_option linter.unusedVariables false

/-!
Verification of the managed-credential connection-pool subsystem
(`backend/credential_manager.py`).

The Python module is shallowly embedded: wall-clock time is an explicit
rational parameter `now`, mutable attributes become explicit state records,
the Databricks SDK and the physical database are an explicit environment
value, and Python exceptions become `Except` values carrying the
`HTTPException` status and detail.  The `psycopg2` pool is modelled with
connection identifiers: `getconn` hands out an available identifier or
opens a fresh one up to `maxconn`, `putconn` only accepts a connection the
pool itself checked out (otherwise it raises, as `psycopg2` does for an
unkeyed connection), and `closeall` closes every member connection,
checked out or not.
-/

/-! ## Python string primitives: `needle in hay` and `str.lower()` -/

/-- `list.isPrefixOf`-style check used to model Python substring search. -/
def isPrefixCL : List Char → List Char → Bool
  | [], _ => true
  | _ :: _, [] => false
  | a :: as, b :: bs => a == b && isPrefixCL as bs

/-- Model of Python `needle in hay` on exploded strings. -/
def containsCL (needle : List Char) : List Char → Bool
  | [] => isPrefixCL needle []
  | c :: cs => isPrefixCL needle (c :: cs) || containsCL needle cs

/-- Model of Python `needle in hay` for strings. -/
def pyIn (needle hay : String) : Bool :=
  containsCL needle.data hay.data

/-- Model of Python `str.lower()` (character-wise lowering). -/
def pyLower (s : String) : String :=
  ⟨s.data.map Char.toLower⟩

/-! ## Exceptions

`fastapi.HTTPException` carries a status code and a detail string;
`str(e)` on it renders as `"<status>: <detail>"`. -/

/-- A raised `HTTPException(status_code, detail)`. -/
structure HTTPError where
  status : Nat
  detail : String
deriving Repr, DecidableEq

/-- Python `str(e)` on an `HTTPException`. -/
def HTTPError.toText (e : HTTPError) : String :=
  toString e.status ++ ": " ++ e.detail

/-! ## The external credential source (Databricks SDK)

`_generate_databricks_credential` consults the environment: whether the
SDK import succeeds, the two environment variables (an unset or empty
variable is falsy in `all([...])`, modelled as `""`), and the outcome of
the two SDK calls (`get_database_instance` + `generate_database_credential`,
collapsed into one `Except`).  `host = ""` or `token = ""` models a falsy
`read_write_dns` / `token` field of the SDK response. -/

structure SourceCred where
  host : String
  token : String
deriving Repr, DecidableEq

structure DatabricksEnv where
  sdkInstalled : Bool
  instanceName : String
  userName : String
  source : Except String SourceCred
deriving Repr

/-- The joined `missing_vars` list of `_generate_databricks_credential`. -/
def missingVarsMsg (env : DatabricksEnv) : String :=
  if env.instanceName == "" && env.userName == "" then
    "DATABRICKS_INSTANCE_NAME, DATABRICKS_USER_NAME"
  else if env.instanceName == "" then
    "DATABRICKS_INSTANCE_NAME"
  else
    "DATABRICKS_USER_NAME"

/-- The `except Exception` wrapper of `_generate_databricks_credential`. -/
def wrapGenError (msg : String) : HTTPError :=
  ⟨500, "Failed to generate database credentials: " ++ msg⟩

/-- `SharedCredentialManager._generate_databricks_credential`.

The `ImportError` branch raises its own `HTTPException`; every other
failure (missing configuration, upstream SDK error, incomplete
credential) is caught by `except Exception` and wrapped by
`wrapGenError`.  On success the PostgreSQL URL is assembled. -/
def generateDatabricksCredential (env : DatabricksEnv) : Except HTTPError String :=
  if !env.sdkInstalled then
    .error ⟨500, "Databricks SDK not installed. Required for production database access."⟩
  else if env.instanceName == "" || env.userName == "" then
    .error (wrapGenError
      ("Missing required Databricks environment variables: " ++ missingVarsMsg env))
  else
    match env.source with
    | .error e => .error (wrapGenError e)
    | .ok cred =>
      if cred.host == "" || cred.token == "" then
        .error (wrapGenError "Incomplete database credentials received from Databricks")
      else
        .ok ("postgresql://" ++ env.userName ++ ":" ++ cred.token ++ "@" ++
          cred.host ++ ":5432/databricks_postgres?sslmode=require")

/-! ## SharedCredentialManager -/

/-- The `CachedCredential` dataclass. -/
structure CachedCredential where
  connection_url : String
  created_at : ℚ
  expires_at : ℚ
  user_id : String
  request_id : String
deriving Repr, DecidableEq

/-- The mutable attributes of `SharedCredentialManager`: the cached
credential and the TTL in seconds (`ttl_minutes * 60`). -/
structure CMState where
  cached_credential : Option CachedCredential
  ttl : ℚ
deriving Repr, DecidableEq

/-- `SharedCredentialManager.__init__` (ttl in minutes). -/
def CMState.init (ttl_minutes : ℚ) : CMState :=
  ⟨none, ttl_minutes * 60⟩

/-- `SharedCredentialManager._is_credential_expired`. -/
def isCredentialExpired (st : CMState) (now : ℚ) : Bool :=
  match st.cached_credential with
  | none => true
  | some c => decide (now ≥ c.expires_at)

/-- Result of one `get_credentials` call: the returned URL or raised
exception, the post-state, and how many times the credential source
(`_generate_databricks_credential`) was invoked during the call. -/
structure GetCredResult where
  result : Except HTTPError String
  state : CMState
  sourceCalls : Nat
deriving Repr

/-- `SharedCredentialManager.get_credentials`.  `now` is the
`time.time()` captured at the start of the call and `reqId` the
`uuid.uuid4()` drawn for the new cache entry. -/
def get_credentials (st : CMState) (env : DatabricksEnv) (now : ℚ)
    (reqId : String) : GetCredResult :=
  if isCredentialExpired st now = false then
    ⟨.ok ((st.cached_credential.map CachedCredential.connection_url).getD ""), st, 0⟩
  else
    match generateDatabricksCredential env with
    | .error e => ⟨.error e, st, 1⟩
    | .ok url =>
      let newCred : CachedCredential := ⟨url, now, now + st.ttl, "shared", reqId⟩
      ⟨.ok url, { st with cached_credential := some newCred }, 1⟩

/-- `SharedCredentialManager.invalidate_credentials`.  The `user_id`
argument is accepted (default `None`) and ignored, as in the source. -/
def invalidate_credentials (st : CMState) (user_id : Option String) :
    Bool × CMState :=
  match st.cached_credential with
  | some _ => (true, { st with cached_credential := none })
  | none => (false, st)

/-- The dictionary returned by `SharedCredentialManager.get_stats`. -/
structure CMStats where
  credential_cached : Bool
  credential_active : Bool
  ttl_minutes : ℚ
  expires_at : Option ℚ
  created_at : Option ℚ
deriving Repr, DecidableEq

/-- `SharedCredentialManager.get_stats`. -/
def CMState.get_stats (st : CMState) (now : ℚ) : CMStats :=
  ⟨st.cached_credential.isSome,
   !(isCredentialExpired st now),
   st.ttl / 60,
   st.cached_credential.map CachedCredential.expires_at,
   st.cached_credential.map CachedCredential.created_at⟩

/-! ## The psycopg2 connection pool

A pool is a set of physical connections, identified by globally unique
numbers drawn from a supply in the manager state.  `pid` distinguishes
pool instances so that "the pool it came from" is expressible.
`getconn` pops an available connection, or opens a fresh one while fewer
than `maxconn` are checked out, or raises `PoolError("connection pool
exhausted")`.  `putconn` without a key looks the connection up among the
ones this pool checked out and raises `PoolError("trying to put unkeyed
connection")` if it is not there — a connection is never absorbed into a
pool it does not belong to.  `closeall` closes every member connection,
available or checked out. -/

structure PoolObj where
  pid : Nat
  available : List Nat
  used : List Nat
deriving Repr, DecidableEq

/-- `ThreadedConnectionPool.getconn` (no key argument). -/
def poolGetconn (p : PoolObj) (nextConnId maxconn : Nat) :
    Except String (Nat × PoolObj × Nat) :=
  match p.available with
  | c :: rest => .ok (c, { p with available := rest, used := c :: p.used }, nextConnId)
  | [] =>
    if p.used.length < maxconn then
      .ok (nextConnId, { p with used := nextConnId :: p.used }, nextConnId + 1)
    else
      .error "connection pool exhausted"

/-- `ThreadedConnectionPool.putconn` (no key argument). -/
def poolPutconn (p : PoolObj) (c : Nat) : Except String PoolObj :=
  if c ∈ p.used then
    .ok { p with available := c :: p.available, used := p.used.erase c }
  else
    .error "trying to put unkeyed connection"

/-! ## SharedConnectionPool -/

/-- The mutable attributes of `SharedConnectionPool` together with the
embedded credential-manager state, the identifier supplies, and a log of
closed physical connections (`closeall` appends to it). -/
structure SCPState where
  cm : CMState
  pool : Option PoolObj
  pool_created_time : Option ℚ
  min_connections : Nat
  max_connections : Nat
  nextPoolId : Nat
  nextConnId : Nat
  closedConns : List Nat
deriving Repr, DecidableEq

/-- `SharedConnectionPool.__init__`. -/
def SCPState.init (cm : CMState) (min_connections max_connections : Nat) : SCPState :=
  ⟨cm, none, none, min_connections, max_connections, 0, 0, []⟩

/-- The environment a `get_connection` call runs against: the Databricks
environment for credential generation, plus whether establishing a
physical connection fails (the error text of `ThreadedConnectionPool`
construction, `none` when connections open fine). -/
structure PoolEnv where
  dbx : DatabricksEnv
  connectError : Option String
deriving Repr

/-- `self.pool.closeall(); self.pool = None; self.pool_created_time = None`
(best effort: close errors are logged and swallowed).  Closes every
member connection of the current pool, checked out or not — this is how
a stale checked-out connection gets its best-effort close. -/
def dropPool (st : SCPState) : SCPState :=
  match st.pool with
  | some p =>
    { st with pool := none, pool_created_time := none,
              closedConns := st.closedConns ++ p.available ++ p.used }
  | none => st

/-- `SharedConnectionPool._should_recreate_pool`. -/
def should_recreate_pool (st : SCPState) (now : ℚ) : Bool :=
  match st.pool, st.pool_created_time with
  | some _, some t => decide (now - t ≥ st.cm.ttl * ((9 : ℚ) / 10))
  | _, _ => true

/-- `SharedConnectionPool._create_shared_pool`.  Obtains credentials
(updating the cache), then constructs a `ThreadedConnectionPool` with
`min_connections` opened connections; any exception is wrapped into
`HTTPException(500, "Failed to create database connection pool: ...")`.
Also reports how often the credential source was invoked. -/
def create_shared_pool (st : SCPState) (env : PoolEnv) (now : ℚ)
    (reqId : String) : Except HTTPError PoolObj × SCPState × Nat :=
  let r := get_credentials st.cm env.dbx now reqId
  let st1 := { st with cm := r.state }
  match r.result with
  | .error e =>
    (.error ⟨500, "Failed to create database connection pool: " ++ e.toText⟩,
     st1, r.sourceCalls)
  | .ok _url =>
    match env.connectError with
    | some msg =>
      (.error ⟨500, "Failed to create database connection pool: " ++ msg⟩,
       st1, r.sourceCalls)
    | none =>
      let conns := (List.range st.min_connections).map (fun i => st.nextConnId + i)
      let p : PoolObj := ⟨st.nextPoolId, conns, []⟩
      (.ok p,
       { st1 with pool := some p, pool_created_time := some now,
                  nextPoolId := st.nextPoolId + 1,
                  nextConnId := st.nextConnId + st.min_connections },
       r.sourceCalls)

/-- The pool-ensuring prefix of `get_connection`: under the lock, if
`_should_recreate_pool()` then close and clear any existing pool and
call `_create_shared_pool()`; otherwise use the existing pool.  (When
`_should_recreate_pool()` is false the pool necessarily exists; the
`none` fallback re-creates, matching the "no pool" criterion.) -/
def ensurePool (st : SCPState) (env : PoolEnv) (now : ℚ) (reqId : String) :
    Except HTTPError PoolObj × SCPState × Nat :=
  if should_recreate_pool st now then
    create_shared_pool (dropPool st) env now reqId
  else
    match st.pool with
    | some p => (.ok p, st, 0)
    | none => create_shared_pool st env now reqId

/-- What the caller's `with ... as conn:` body does: finish normally or
raise an exception whose `str` is `msg`. -/
inductive UseOutcome
  | ok
  | err (msg : String)
deriving Repr, DecidableEq

/-- The `except Exception as e` block of `get_connection`: if the error
text mentions authentication or credentials, invalidate the shared
credentials and drop the pool; in every case re-raise as
`HTTPException(500, "Database connection failed: ...")`. -/
def handleConnError (st : SCPState) (txt : String) : SCPState × HTTPError :=
  let st1 :=
    if pyIn "authentication" (pyLower txt) || pyIn "credential" (pyLower txt) then
      let inv := invalidate_credentials st.cm none
      dropPool { st with cm := inv.2 }
    else st
  (st1, ⟨500, "Database connection failed: " ++ txt⟩)

/-- The `finally` block of `get_connection`: if a connection was checked
out, return it to the current pool when there is one; a `putconn`
failure (stale connection, replaced pool) is logged and swallowed. -/
def finallyPut (st : SCPState) (conn : Option Nat) : SCPState :=
  match conn with
  | none => st
  | some c =>
    match st.pool with
    | none => st
    | some p =>
      match poolPutconn p c with
      | .ok p2 => { st with pool := some p2 }
      | .error _ => st

/-- Result of one `get_connection` call: the yielded connection or the
raised `HTTPException`, the post-state, the number of credential-source
invocations, and which connection (if any) was checked out. -/
structure ConnResult where
  result : Except HTTPError Nat
  state : SCPState
  sourceCalls : Nat
  conn : Option Nat

/-- `SharedConnectionPool.get_connection` (the whole context-manager
execution: ensure pool, `getconn`, run the body, exception handler,
`finally`).  The `user_id` argument is accepted and ignored, as in the
source. -/
def get_connection (st : SCPState) (env : PoolEnv) (now : ℚ) (reqId : String)
    (use : UseOutcome) (user_id : Option String) : ConnResult :=
  match ensurePool st env now reqId with
  | (.error e, stA, calls) =>
    let h := handleConnError stA e.toText
    ⟨.error h.2, finallyPut h.1 none, calls, none⟩
  | (.ok p, stA, calls) =>
    match poolGetconn p stA.nextConnId stA.max_connections with
    | .error msg =>
      let h := handleConnError stA msg
      ⟨.error h.2, finallyPut h.1 none, calls, none⟩
    | .ok (c, p2, nid) =>
      let stB := { stA with pool := some p2, nextConnId := nid }
      match use with
      | .ok => ⟨.ok c, finallyPut stB (some c), calls, some c⟩
      | .err msg =>
        let h := handleConnError stB msg
        ⟨.error h.2, finallyPut h.1 (some c), calls, some c⟩

/-- `SharedConnectionPool.close_shared_pool`: best-effort `closeall`,
then clear the pool and its creation time; a no-op when no pool exists. -/
def close_shared_pool (st : SCPState) : SCPState :=
  dropPool st

/-- The dictionary returned by `SharedConnectionPool.get_stats`. -/
structure PoolStats where
  pool_exists : Bool
  pool_created_time : Option ℚ
  min_connections : Nat
  max_connections : Nat
deriving Repr, DecidableEq

/-- `SharedConnectionPool.get_stats`. -/
def SCPState.get_stats (st : SCPState) : PoolStats :=
  ⟨st.pool.isSome, st.pool_created_time, st.min_connections, st.max_connections⟩

/-! ## Helper lemmas -/

/-- `_is_credential_expired` is true exactly when the cache is empty or
the cached expiry is not in the strict future. -/
theorem isCredentialExpired_iff (st : CMState) (now : ℚ) :
    isCredentialExpired st now = true ↔
      st.cached_credential = none ∨
        ∃ c, st.cached_credential = some c ∧ c.expires_at ≤ now := by
  unfold isCredentialExpired
  cases h : st.cached_credential with
  | none => simp
  | some c => simp [ge_iff_le]

/-- `invalidate_credentials` always leaves the cache empty. -/
theorem invalidate_clears (st : CMState) (u : Option String) :
    (invalidate_credentials st u).2.cached_credential = none := by
  unfold invalidate_credentials
  cases h : st.cached_credential <;> simp [h]

/-- `invalidate_credentials` returns whether a credential was present. -/
theorem invalidate_fst (st : CMState) (u : Option String) :
    (invalidate_credentials st u).1 = true ↔ st.cached_credential ≠ none := by
  unfold invalidate_credentials
  cases h : st.cached_credential <;> simp [h]

/-- With an empty cache, `get_credentials` invokes the source exactly
once, whatever the outcome. -/
theorem get_credentials_sourceCalls_of_none (st : CMState) (env : DatabricksEnv)
    (now : ℚ) (reqId : String) (h : st.cached_credential = none) :
    (get_credentials st env now reqId).sourceCalls = 1 := by
  unfold get_credentials isCredentialExpired
  rw [h]
  cases generateDatabricksCredential env <;> simp

/-! ## Claims -/

/-- C1: `get_credentials` returns a cached, still-valid credential's URL
unmodified without consulting the source; if the cache is empty or the
current time has reached `expires_at` (including exactly at
`expires_at`), the source is invoked exactly once and, on success, the
result is cached with `created_at` equal to the call's captured time and
`expires_at = created_at + TTL`, and the new URL is returned. -/
theorem C1_get_credentials_cache_and_refresh (st : CMState) (env : DatabricksEnv)
    (now : ℚ) (reqId : String) :
    (∀ c, st.cached_credential = some c → now < c.expires_at →
      get_credentials st env now reqId = ⟨.ok c.connection_url, st, 0⟩) ∧
    ((st.cached_credential = none ∨
        ∃ c, st.cached_credential = some c ∧ c.expires_at ≤ now) →
      (get_credentials st env now reqId).sourceCalls = 1 ∧
      ∀ url, generateDatabricksCredential env = .ok url →
        get_credentials st env now reqId =
          ⟨.ok url,
           { st with cached_credential := some ⟨url, now, now + st.ttl, "shared", reqId⟩ },
           1⟩) := by
  constructor
  · intro c hc hlt
    have hexp : isCredentialExpired st now = false := by
      unfold isCredentialExpired
      rw [hc]
      simp [not_le.mpr hlt]
    unfold get_credentials
    rw [hexp]
    simp [hc]
  · intro hstale
    have hexp : isCredentialExpired st now = true :=
      (isCredentialExpired_iff st now).mpr hstale
    unfold get_credentials
    rw [hexp]
    constructor
    · cases generateDatabricksCredential env <;> simp
    · intro url hurl
      rw [hurl]
      simp

/-- C1 witness: a cached credential valid until t=1800 is served
unmodified at t=50. -/
theorem C1_witness :
    get_credentials ⟨some ⟨"url0", 0, 1800, "shared", "r0"⟩, 1800⟩
        ⟨true, "inst", "user", .ok ⟨"h", "tok"⟩⟩ 50 "r1" =
      ⟨.ok "url0", ⟨some ⟨"url0", 0, 1800, "shared", "r0"⟩, 1800⟩, 0⟩ :=
  (C1_get_credentials_cache_and_refresh
      ⟨some ⟨"url0", 0, 1800, "shared", "r0"⟩, 1800⟩
      ⟨true, "inst", "user", .ok ⟨"h", "tok"⟩⟩ 50 "r1").1
    ⟨"url0", 0, 1800, "shared", "r0"⟩ rfl (by norm_num)

/-- Fixture for the C4 counterexample: a cache holding an expired
credential, and a credential source whose upstream call fails. -/
def c4State : CMState := ⟨some ⟨"oldurl", 0, 10, "shared", "r0"⟩, 10⟩

/-- Fixture environment whose upstream SDK call fails. -/
def c4Env : DatabricksEnv := ⟨true, "inst", "user", .error "upstream boom"⟩

/-- C4 counterexample: regeneration at t=20 of a credential that expired
at t=10 fails, the error propagates — but the cache is NOT left empty:
the stale entry is still present afterwards. -/
theorem C4_counterexample :
    (get_credentials c4State c4Env 20 "r1").result =
      .error ⟨500, "Failed to generate database credentials: upstream boom"⟩ ∧
    (get_credentials c4State c4Env 20 "r1").state.cached_credential =
      some ⟨"oldurl", 0, 10, "shared", "r0"⟩ := by
  constructor <;> rfl

/-- C4 (amended): when regeneration is attempted (cache empty or
expired) and the credential source fails — missing configuration,
upstream error, or an incomplete credential — `get_credentials`
propagates the error and leaves the cache exactly as it was: no partial
update; the prior entry is replaced only after a successful, validated
generation. -/
theorem C4_regen_failure_leaves_cache_unchanged (st : CMState)
    (env : DatabricksEnv) (now : ℚ) (reqId : String) (e : HTTPError)
    (hexp : isCredentialExpired st now = true)
    (hgen : generateDatabricksCredential env = .error e) :
    get_credentials st env now reqId = ⟨.error e, st, 1⟩ := by
  unfold get_credentials
  rw [hexp, hgen]
  simp

/-- C4 witness: with an empty cache and a failing upstream source the
error propagates and the (empty) cache is unchanged. -/
theorem C4_witness :
    get_credentials ⟨none, 1800⟩ c4Env 0 "r1" =
      ⟨.error ⟨500, "Failed to generate database credentials: upstream boom"⟩,
       ⟨none, 1800⟩, 1⟩ :=
  C4_regen_failure_leaves_cache_unchanged ⟨none, 1800⟩ c4Env 0 "r1"
    ⟨500, "Failed to generate database credentials: upstream boom"⟩ rfl rfl

/-- C6: `invalidate_credentials` clears the cache unconditionally and
returns true exactly when a credential had been present; the next
`get_credentials` call then invokes the credential source exactly once,
however much TTL remained on the cleared credential. -/
theorem C6_invalidate_then_single_regen (st : CMState) (uid : Option String)
    (env : DatabricksEnv) (now : ℚ) (reqId : String) :
    (invalidate_credentials st uid).2.cached_credential = none ∧
    ((invalidate_credentials st uid).1 = true ↔ st.cached_credential ≠ none) ∧
    (get_credentials (invalidate_credentials st uid).2 env now reqId).sourceCalls = 1 :=
  ⟨invalidate_clears st uid, invalidate_fst st uid,
   get_credentials_sourceCalls_of_none _ env now reqId (invalidate_clears st uid)⟩

/-- Sequential execution of a list of `get_credentials` calls, each a
pair (captured `time.time()`, drawn request id).  `self.lock` makes the
body of `get_credentials` a critical section, so every concurrent
schedule of callers executes as one such sequence.  Returns the final
state, the total number of credential-source invocations, and the
per-call results in order. -/
def runCalls (env : DatabricksEnv) : CMState → List (ℚ × String) →
    CMState × Nat × List (Except HTTPError String)
  | st, [] => (st, 0, [])
  | st, (t, r) :: rest =>
    let g := get_credentials st env t r
    let k := runCalls env g.state rest
    (k.1, g.sourceCalls + k.2.1, g.result :: k.2.2)

/-- While a valid credential is cached, a run of calls before its expiry
makes no source invocations, leaves the state alone, and answers every
call with the cached URL. -/
theorem runCalls_cached (env : DatabricksEnv) (c : CachedCredential) (ttl : ℚ)
    (ts : List (ℚ × String)) (hwin : ∀ p ∈ ts, p.1 < c.expires_at) :
    runCalls env ⟨some c, ttl⟩ ts =
      (⟨some c, ttl⟩, 0, ts.map (fun _ => .ok c.connection_url)) := by
  induction ts with
  | nil => rfl
  | cons hd tl ih =>
    obtain ⟨t, r⟩ := hd
    have ht : t < c.expires_at := hwin (t, r) (by simp)
    have hcall : get_credentials ⟨some c, ttl⟩ env t r =
        ⟨.ok c.connection_url, ⟨some c, ttl⟩, 0⟩ := by
      have hexp : isCredentialExpired ⟨some c, ttl⟩ t = false := by
        unfold isCredentialExpired
        simp [not_le.mpr ht]
      unfold get_credentials
      rw [hexp]
      simp
    simp only [runCalls, hcall]
    rw [ih (fun p hp => hwin p (by simp [hp]))]
    simp

/-- C7: with all callers serialized by the manager's lock, any sequence
of `get_credentials` calls starting from an empty cache whose later
calls all fall strictly inside the TTL window opened by the first call
invokes the credential source exactly once, and every caller receives
the same freshly cached URL. -/
theorem C7_single_issuance_per_window (env : DatabricksEnv) (ttl t0 : ℚ)
    (r0 : String) (ts : List (ℚ × String)) (url : String)
    (hok : generateDatabricksCredential env = .ok url)
    (hwin : ∀ p ∈ ts, p.1 < t0 + ttl) :
    (runCalls env ⟨none, ttl⟩ ((t0, r0) :: ts)).2.1 = 1 ∧
    (runCalls env ⟨none, ttl⟩ ((t0, r0) :: ts)).2.2 =
      (.ok url) :: ts.map (fun _ => .ok url) := by
  have hfirst : get_credentials ⟨none, ttl⟩ env t0 r0 =
      ⟨.ok url, ⟨some ⟨url, t0, t0 + ttl, "shared", r0⟩, ttl⟩, 1⟩ := by
    unfold get_credentials isCredentialExpired
    rw [hok]
    simp
  simp only [runCalls, hfirst]
  rw [runCalls_cached env ⟨url, t0, t0 + ttl, "shared", r0⟩ ttl ts hwin]
  simp

/-- C7 witness: three serialized calls inside one 1800-second window
from an empty cache issue exactly one credential. -/
theorem C7_witness :
    (runCalls ⟨true, "inst", "user", .ok ⟨"h", "tok"⟩⟩ ⟨none, 1800⟩
        ((0, "r0") :: [(1, "r1"), (2, "r2")])).2.1 = 1 ∧
    (runCalls ⟨true, "inst", "user", .ok ⟨"h", "tok"⟩⟩ ⟨none, 1800⟩
        ((0, "r0") :: [(1, "r1"), (2, "r2")])).2.2 =
      (.ok "postgresql://user:tok@h:5432/databricks_postgres?sslmode=require") ::
        [(1, "r1"), (2, "r2")].map
          (fun _ => .ok "postgresql://user:tok@h:5432/databricks_postgres?sslmode=require") :=
  C7_single_issuance_per_window ⟨true, "inst", "user", .ok ⟨"h", "tok"⟩⟩ 1800 0 "r0"
    [(1, "r1"), (2, "r2")]
    "postgresql://user:tok@h:5432/databricks_postgres?sslmode=require" rfl
    (by
      intro p hp
      rcases List.mem_cons.mp hp with h | h
      · subst h; norm_num
      · rcases List.mem_cons.mp h with h2 | h2
        · subst h2; norm_num
        · simp at h2)

/-- C5 fixture: a pool created at t=0 over a credential with a 1-second
TTL issued at t=0 (so the credential expires at t=1). -/
def c5State : SCPState :=
  ⟨⟨some ⟨"u", 0, 1, "shared", "r0"⟩, 1⟩, some ⟨0, [0], []⟩, some 0, 1, 5, 1, 1, []⟩

/-- C5: an acquisition recreates the pool exactly when no pool exists or
`now - poolCreatedAt >= 0.9 * credentialTTL`; a fresh-enough existing
pool is reused as is, a stale one is closed and rebuilt.  In the
concrete scenario (TTL = 1s, pool created at t=0) an acquisition at
t=0.95s must rebuild although the credential itself only expires at
t=1s, while an acquisition at t=0.5s must not. -/
theorem C5_rebuild_at_ninety_percent_ttl :
    (∀ st : SCPState, ∀ now : ℚ,
      should_recreate_pool st now = true ↔
        st.pool = none ∨ st.pool_created_time = none ∨
          ∃ t, st.pool_created_time = some t ∧
            now - t ≥ st.cm.ttl * ((9 : ℚ) / 10)) ∧
    (∀ st : SCPState, ∀ env : PoolEnv, ∀ now : ℚ, ∀ reqId : String, ∀ p : PoolObj,
      should_recreate_pool st now = false → st.pool = some p →
        ensurePool st env now reqId = (.ok p, st, 0)) ∧
    (∀ st : SCPState, ∀ env : PoolEnv, ∀ now : ℚ, ∀ reqId : String,
      should_recreate_pool st now = true →
        ensurePool st env now reqId = create_shared_pool (dropPool st) env now reqId) ∧
    should_recreate_pool c5State ((95 : ℚ) / 100) = true ∧
    isCredentialExpired c5State.cm ((95 : ℚ) / 100) = false ∧
    should_recreate_pool c5State ((5 : ℚ) / 10) = false := by
  refine ⟨?_, ?_, ?_, ?_, ?_, ?_⟩
  · intro st now
    unfold should_recreate_pool
    cases hp : st.pool with
    | none => cases ht : st.pool_created_time <;> simp
    | some p =>
      cases ht : st.pool_created_time with
      | none => simp
      | some t => simp [ge_iff_le]
  · intro st env now reqId p hrec hp
    unfold ensurePool
    rw [hrec, hp]
    simp
  · intro st env now reqId hrec
    unfold ensurePool
    rw [hrec]
    simp
  · unfold should_recreate_pool c5State
    norm_num
  · unfold isCredentialExpired c5State
    norm_num
  · unfold should_recreate_pool c5State
    norm_num

/-- C5 witness: a pool created at t=0 with a 1800-second TTL is kept as
is when acquiring at t=100 (age below 90% of TTL). -/
theorem C5_witness :
    ensurePool ⟨⟨some ⟨"u", 0, 1800, "shared", "r0"⟩, 1800⟩, some ⟨0, [0], []⟩,
        some 0, 1, 5, 1, 1, []⟩ ⟨⟨true, "inst", "user", .ok ⟨"h", "tok"⟩⟩, none⟩
        100 "r1" =
      (.ok ⟨0, [0], []⟩,
       ⟨⟨some ⟨"u", 0, 1800, "shared", "r0"⟩, 1800⟩, some ⟨0, [0], []⟩,
        some 0, 1, 5, 1, 1, []⟩, 0) :=
  (C5_rebuild_at_ninety_percent_ttl).2.1
    ⟨⟨some ⟨"u", 0, 1800, "shared", "r0"⟩, 1800⟩, some ⟨0, [0], []⟩,
     some 0, 1, 5, 1, 1, []⟩
    ⟨⟨true, "inst", "user", .ok ⟨"h", "tok"⟩⟩, none⟩ 100 "r1" ⟨0, [0], []⟩
    (by unfold should_recreate_pool; norm_num) rfl

/-- C8: `close_shared_pool` is idempotent: a second call is a no-op and
neither call can raise; after each call `get_stats` reports
`pool_exists = false` and `pool_created_time = None`.  The hypothesis is
the state-consistency invariant every reachable state satisfies: the
code only ever sets or clears `pool` and `pool_created_time` together. -/
theorem C8_close_shared_pool_idempotent (st : SCPState)
    (hinv : st.pool = none → st.pool_created_time = none) :
    close_shared_pool (close_shared_pool st) = close_shared_pool st ∧
    (close_shared_pool st).get_stats.pool_exists = false ∧
    (close_shared_pool st).get_stats.pool_created_time = none ∧
    (close_shared_pool (close_shared_pool st)).get_stats.pool_exists = false ∧
    (close_shared_pool (close_shared_pool st)).get_stats.pool_created_time = none := by
  unfold close_shared_pool dropPool SCPState.get_stats
  cases h : st.pool with
  | none => simp [h, hinv h]
  | some p => simp [h]

/-- C9: the `user_id` argument of `invalidate_credentials` and of
`get_connection` has no influence whatsoever: from the same state and
environment, two calls differing only in `user_id` return the same
value, raise the same error, and produce the same final state. -/
theorem C9_user_id_has_no_influence (stc : CMState) (st : SCPState)
    (env : PoolEnv) (now : ℚ) (reqId : String) (use : UseOutcome)
    (u1 u2 : Option String) :
    invalidate_credentials stc u1 = invalidate_credentials stc u2 ∧
    get_connection st env now reqId use u1 = get_connection st env now reqId use u2 :=
  ⟨rfl, rfl⟩

/-- C8 witness: closing a live single-connection pool twice leaves
`pool_exists = false` and `pool_created_time = none` after each call,
and the second call changes nothing. -/
theorem C8_witness :
    close_shared_pool (close_shared_pool
        ⟨⟨none, 1800⟩, some ⟨0, [0], []⟩, some 0, 1, 5, 1, 1, []⟩) =
      close_shared_pool ⟨⟨none, 1800⟩, some ⟨0, [0], []⟩, some 0, 1, 5, 1, 1, []⟩ ∧
    (close_shared_pool
        ⟨⟨none, 1800⟩, some ⟨0, [0], []⟩, some 0, 1, 5, 1, 1, []⟩).get_stats.pool_exists
      = false ∧
    (close_shared_pool
        ⟨⟨none, 1800⟩, some ⟨0, [0], []⟩, some 0, 1, 5, 1, 1, []⟩).get_stats.pool_created_time
      = none ∧
    (close_shared_pool (close_shared_pool
        ⟨⟨none, 1800⟩, some ⟨0, [0], []⟩, some 0, 1, 5, 1, 1, []⟩)).get_stats.pool_exists
      = false ∧
    (close_shared_pool (close_shared_pool
        ⟨⟨none, 1800⟩, some ⟨0, [0], []⟩, some 0, 1, 5, 1, 1, []⟩)).get_stats.pool_created_time
      = none :=
  C8_close_shared_pool_idempotent
    ⟨⟨none, 1800⟩, some ⟨0, [0], []⟩, some 0, 1, 5, 1, 1, []⟩ (by simp)

/-- A successful `getconn` keeps the pool's identity and records the
handed-out connection among the ones this pool checked out. -/
theorem poolGetconn_ok_shape (p : PoolObj) (n m c : Nat) (p2 : PoolObj)
    (nid : Nat) (h : poolGetconn p n m = .ok (c, p2, nid)) :
    p2.pid = p.pid ∧ c ∈ p2.used := by
  unfold poolGetconn at h
  cases ha : p.available with
  | cons a rest =>
    rw [ha] at h
    simp only [Except.ok.injEq, Prod.mk.injEq] at h
    obtain ⟨hc, hp2, hn⟩ := h
    subst hc
    subst hp2
    simp
  | nil =>
    rw [ha] at h
    by_cases hlen : p.used.length < m
    · simp only [hlen, if_true, Except.ok.injEq, Prod.mk.injEq] at h
      obtain ⟨hc, hp2, hn⟩ := h
      subst hc
      subst hp2
      simp
    · simp [hlen] at h

/-- The success path of `get_connection`: pool ensured, `getconn`
succeeded, the body finished normally. -/
theorem get_connection_ok_path (st : SCPState) (env : PoolEnv) (now : ℚ)
    (reqId : String) (uid : Option String) (pA : PoolObj) (stA : SCPState)
    (k : Nat) (c : Nat) (p2 : PoolObj) (nid : Nat)
    (hE : ensurePool st env now reqId = (.ok pA, stA, k))
    (hG : poolGetconn pA stA.nextConnId stA.max_connections = .ok (c, p2, nid)) :
    get_connection st env now reqId .ok uid =
      ⟨.ok c, finallyPut { stA with pool := some p2, nextConnId := nid } (some c),
       k, some c⟩ := by
  unfold get_connection
  rw [hE]
  simp only
  rw [hG]

/-- C2: a connection checked out by `get_connection` is, on release,
returned to the very pool it came from (same pool identity, connection
back among the available ones); if the pool has meanwhile been replaced
or discarded, the release attempt leaves every pool untouched (the
stale connection is dropped), and a replaced pool's `closeall` has
already best-effort-closed every connection it had handed out. -/
theorem C2_release_returns_to_owning_pool :
    (∀ st : SCPState, ∀ env : PoolEnv, ∀ now : ℚ, ∀ reqId : String,
     ∀ uid : Option String, ∀ pA stA k c p2 nid,
      ensurePool st env now reqId = (.ok pA, stA, k) →
      poolGetconn pA stA.nextConnId stA.max_connections = .ok (c, p2, nid) →
      ∃ p3, (get_connection st env now reqId .ok uid).state.pool = some p3 ∧
        p3.pid = pA.pid ∧ c ∈ p3.available) ∧
    (∀ st : SCPState, ∀ c : Nat, st.pool = none → finallyPut st (some c) = st) ∧
    (∀ st : SCPState, ∀ p : PoolObj, ∀ c : Nat,
      st.pool = some p → c ∉ p.used → finallyPut st (some c) = st) ∧
    (∀ st : SCPState, ∀ p : PoolObj, ∀ c : Nat,
      st.pool = some p → c ∈ p.used → c ∈ (dropPool st).closedConns) := by
  refine ⟨?_, ?_, ?_, ?_⟩
  · intro st env now reqId uid pA stA k c p2 nid hE hG
    obtain ⟨hpid, hused⟩ := poolGetconn_ok_shape pA _ _ c p2 nid hG
    rw [get_connection_ok_path st env now reqId uid pA stA k c p2 nid hE hG]
    unfold finallyPut poolPutconn
    simp only [hused, if_true]
    exact ⟨_, rfl, by simp [hpid], by simp⟩
  · intro st c h
    unfold finallyPut
    rw [h]
  · intro st p c hp hc
    unfold finallyPut poolPutconn
    rw [hp]
    simp [hc]
  · intro st p c hp hc
    unfold dropPool
    rw [hp]
    simp [hc]

/-- C2 witness: dropping a stale connection when the pool is gone leaves
the state untouched (it is never pushed into a foreign pool). -/
theorem C2_witness :
    finallyPut ⟨⟨none, 1800⟩, none, none, 1, 5, 0, 0, []⟩ (some 7) =
      ⟨⟨none, 1800⟩, none, none, 1, 5, 0, 0, []⟩ :=
  (C2_release_returns_to_owning_pool).2.1
    ⟨⟨none, 1800⟩, none, none, 1, 5, 0, 0, []⟩ 7 rfl

/-- The path of `get_connection` in which the pool was ensured, a
connection was checked out, and the caller's body then raised an
exception rendered as `msg`. -/
theorem get_connection_err_path (st : SCPState) (env : PoolEnv) (now : ℚ)
    (reqId : String) (uid : Option String) (msg : String) (pA : PoolObj)
    (stA : SCPState) (k : Nat) (c : Nat) (p2 : PoolObj) (nid : Nat)
    (hE : ensurePool st env now reqId = (.ok pA, stA, k))
    (hG : poolGetconn pA stA.nextConnId stA.max_connections = .ok (c, p2, nid)) :
    get_connection st env now reqId (.err msg) uid =
      ⟨.error (handleConnError { stA with pool := some p2, nextConnId := nid } msg).2,
       finallyPut (handleConnError { stA with pool := some p2, nextConnId := nid } msg).1
         (some c),
       k, some c⟩ := by
  unfold get_connection
  rw [hE]
  simp only
  rw [hG]

/-- C3: when the caller's body raises an error whose text contains
"authentication" or "credential" (case-insensitively), `get_connection`
invalidates the shared credential cache (so `stats()` then reports
`credential_cached = false`), discards the pool and its creation time
(forcing a full rebuild on the next acquisition), and only then
propagates the wrapped error. -/
theorem C3_auth_error_invalidates_and_clears (st : SCPState) (env : PoolEnv)
    (now : ℚ) (reqId : String) (uid : Option String) (msg : String)
    (pA : PoolObj) (stA : SCPState) (k : Nat) (c : Nat) (p2 : PoolObj) (nid : Nat)
    (hE : ensurePool st env now reqId = (.ok pA, stA, k))
    (hG : poolGetconn pA stA.nextConnId stA.max_connections = .ok (c, p2, nid))
    (hauth : (pyIn "authentication" (pyLower msg) ||
              pyIn "credential" (pyLower msg)) = true) :
    (get_connection st env now reqId (.err msg) uid).result =
      .error ⟨500, "Database connection failed: " ++ msg⟩ ∧
    (get_connection st env now reqId (.err msg) uid).state.cm.cached_credential
      = none ∧
    ((get_connection st env now reqId (.err msg) uid).state.cm.get_stats now).credential_cached
      = false ∧
    (get_connection st env now reqId (.err msg) uid).state.pool = none ∧
    (get_connection st env now reqId (.err msg) uid).state.pool_created_time = none := by
  rw [get_connection_err_path st env now reqId uid msg pA stA k c p2 nid hE hG]
  unfold handleConnError
  rw [hauth]
  simp only [if_true]
  unfold dropPool finallyPut
  simp [CMState.get_stats, invalidate_clears, isCredentialExpired]

/-- C3 witness: a "password authentication failed" error raised while
using a freshly built single-connection pool clears both the credential
cache and the pool before the wrapped error propagates. -/
theorem C3_witness :
    (get_connection (SCPState.init ⟨none, 1800⟩ 1 5)
        ⟨⟨true, "inst", "user", .ok ⟨"h", "tok"⟩⟩, none⟩ 0 "r"
        (.err "FATAL: password authentication failed for user") none).result =
      .error ⟨500, "Database connection failed: FATAL: password authentication failed for user"⟩ ∧
    (get_connection (SCPState.init ⟨none, 1800⟩ 1 5)
        ⟨⟨true, "inst", "user", .ok ⟨"h", "tok"⟩⟩, none⟩ 0 "r"
        (.err "FATAL: password authentication failed for user") none).state.cm.cached_credential
      = none ∧
    ((get_connection (SCPState.init ⟨none, 1800⟩ 1 5)
        ⟨⟨true, "inst", "user", .ok ⟨"h", "tok"⟩⟩, none⟩ 0 "r"
        (.err "FATAL: password authentication failed for user") none).state.cm.get_stats 0).credential_cached
      = false ∧
    (get_connection (SCPState.init ⟨none, 1800⟩ 1 5)
        ⟨⟨true, "inst", "user", .ok ⟨"h", "tok"⟩⟩, none⟩ 0 "r"
        (.err "FATAL: password authentication failed for user") none).state.pool = none ∧
    (get_connection (SCPState.init ⟨none, 1800⟩ 1 5)
        ⟨⟨true, "inst", "user", .ok ⟨"h", "tok"⟩⟩, none⟩ 0 "r"
        (.err "FATAL: password authentication failed for user") none).state.pool_created_time
      = none :=
  C3_auth_error_invalidates_and_clears (SCPState.init ⟨none, 1800⟩ 1 5)
    ⟨⟨true, "inst", "user", .ok ⟨"h", "tok"⟩⟩, none⟩ 0 "r" none
    "FATAL: password authentication failed for user"
    ⟨0, [0], []⟩
    ⟨⟨some ⟨"postgresql://user:tok@h:5432/databricks_postgres?sslmode=require",
        0, 0 + 1800, "shared", "r"⟩, 1800⟩,
     some ⟨0, [0], []⟩, some 0, 1, 5, 1, 1, []⟩
    1 0 ⟨0, [], [0]⟩ 1 rfl rfl (by decide)

/-! ## Substring lemmas for the error-text heuristic -/

/-- A prefix of `a` is still a prefix of `a ++ b`. -/
theorem isPrefixCL_append (n a b : List Char) (h : isPrefixCL n a = true) :
    isPrefixCL n (a ++ b) = true := by
  induction n generalizing a with
  | nil => simp [isPrefixCL]
  | cons x xs ih =>
    cases a with
    | nil => simp [isPrefixCL] at h
    | cons y ys =>
      simp only [List.cons_append, isPrefixCL, Bool.and_eq_true] at h ⊢
      exact ⟨h.1, ih ys h.2⟩

/-- The empty needle occurs in every haystack. -/
theorem containsCL_nil_needle (l : List Char) : containsCL [] l = true := by
  cases l <;> simp [containsCL, isPrefixCL]

/-- An occurrence in `a` is an occurrence in `a ++ b`. -/
theorem containsCL_append_right (n a b : List Char)
    (h : containsCL n a = true) : containsCL n (a ++ b) = true := by
  induction a with
  | nil =>
    cases n with
    | nil => exact containsCL_nil_needle b
    | cons x xs => simp [containsCL, isPrefixCL] at h
  | cons y ys ih =>
    simp only [containsCL, Bool.or_eq_true] at h
    simp only [List.cons_append, containsCL, Bool.or_eq_true]
    rcases h with h | h
    · exact Or.inl (isPrefixCL_append n (y :: ys) b h)
    · exact Or.inr (ih h)

/-- An occurrence in `b` is an occurrence in `a ++ b`. -/
theorem containsCL_append_left (n a b : List Char)
    (h : containsCL n b = true) : containsCL n (a ++ b) = true := by
  induction a with
  | nil => simpa using h
  | cons y ys ih =>
    simp only [List.cons_append, containsCL, Bool.or_eq_true]
    exact Or.inr ih

/-- Python `.lower()` distributes over concatenation. -/
theorem pyLower_append (a b : String) :
    pyLower (a ++ b) = pyLower a ++ pyLower b := by
  show String.mk ((a.data ++ b.data).map Char.toLower) =
    String.mk (a.data.map Char.toLower ++ b.data.map Char.toLower)
  rw [List.map_append]

/-- A (lower-cased) occurrence in the right part survives prepending. -/
theorem pyIn_pyLower_append_right (n a b : String)
    (h : pyIn n (pyLower b) = true) : pyIn n (pyLower (a ++ b)) = true := by
  rw [pyLower_append]
  exact containsCL_append_left n.data (pyLower a).data (pyLower b).data h

/-- A (lower-cased) occurrence in the left part survives appending. -/
theorem pyIn_pyLower_append_left (n a b : String)
    (h : pyIn n (pyLower a) = true) : pyIn n (pyLower (a ++ b)) = true := by
  rw [pyLower_append]
  exact containsCL_append_right n.data (pyLower a).data (pyLower b).data h

/-! ## Helper lemmas for the pool error paths -/

/-- With the SDK importable, every `_generate_databricks_credential`
failure is wrapped into `"Failed to generate database credentials: ..."`. -/
theorem genError_is_wrapped (env : DatabricksEnv) (e : HTTPError)
    (hsdk : env.sdkInstalled = true)
    (h : generateDatabricksCredential env = .error e) :
    ∃ m, e = wrapGenError m := by
  unfold generateDatabricksCredential at h
  rw [hsdk] at h
  simp only [Bool.not_true, Bool.false_eq_true, if_false] at h
  split at h
  · exact ⟨_, ((Except.error.injEq _ _).mp h).symm⟩
  · split at h
    · exact ⟨_, ((Except.error.injEq _ _).mp h).symm⟩
    · split at h
      · exact ⟨_, ((Except.error.injEq _ _).mp h).symm⟩
      · simp at h

/-- `dropPool` never touches the credential-manager state. -/
theorem dropPool_cm (st : SCPState) : (dropPool st).cm = st.cm := by
  unfold dropPool
  cases h : st.pool <;> simp [h]

/-- After `dropPool` no pool is present. -/
theorem dropPool_pool (st : SCPState) : (dropPool st).pool = none := by
  unfold dropPool
  cases h : st.pool <;> simp [h]

/-- After `dropPool` the creation time is cleared, on every state
satisfying the reachability invariant that `pool` and
`pool_created_time` are set or cleared together. -/
theorem dropPool_time (st : SCPState)
    (hcons : st.pool = none → st.pool_created_time = none) :
    (dropPool st).pool_created_time = none := by
  unfold dropPool
  cases h : st.pool with
  | some p => simp [h]
  | none => simp [h, hcons h]

/-- Helper form of the failing-regeneration case of `get_credentials`. -/
theorem get_credentials_gen_error (st : CMState) (env : DatabricksEnv)
    (now : ℚ) (reqId : String) (e : HTTPError)
    (hexp : isCredentialExpired st now = true)
    (hgen : generateDatabricksCredential env = .error e) :
    get_credentials st env now reqId = ⟨.error e, st, 1⟩ := by
  unfold get_credentials
  rw [hexp, hgen]
  simp

/-- The path of `get_connection` in which already ensuring the pool
raised. -/
theorem get_connection_ensure_error_path (st : SCPState) (env : PoolEnv)
    (now : ℚ) (reqId : String) (uid : Option String) (use : UseOutcome)
    (e : HTTPError) (stA : SCPState) (k : Nat)
    (hE : ensurePool st env now reqId = (.error e, stA, k)) :
    get_connection st env now reqId use uid =
      ⟨.error (handleConnError stA e.toText).2,
       finallyPut (handleConnError stA e.toText).1 none, k, none⟩ := by
  unfold get_connection
  rw [hE]

/-- C10: when the credential source (SDK importable, so every failure is
wrapped as "Failed to generate database credentials: ...") fails during a
pool rebuild inside `get_connection`, the propagated error text contains
the substring "credential", so the authentication-recovery branch also
fires: the credential cache is invalidated and the pool state cleared
before the error is raised.  The last hypothesis is the reachability
invariant that `pool` and `pool_created_time` are cleared together. -/
theorem C10_source_failure_during_rebuild (st : SCPState) (env : PoolEnv)
    (now : ℚ) (reqId : String) (uid : Option String) (use : UseOutcome)
    (e : HTTPError)
    (hsdk : env.dbx.sdkInstalled = true)
    (hexp : isCredentialExpired st.cm now = true)
    (hrec : should_recreate_pool st now = true)
    (hgen : generateDatabricksCredential env.dbx = .error e)
    (hcons : st.pool = none → st.pool_created_time = none) :
    (∃ d, (get_connection st env now reqId use uid).result = .error ⟨500, d⟩ ∧
      pyIn "credential" (pyLower d) = true) ∧
    (get_connection st env now reqId use uid).state.cm.cached_credential = none ∧
    (get_connection st env now reqId use uid).state.pool = none ∧
    (get_connection st env now reqId use uid).state.pool_created_time = none := by
  obtain ⟨m, hm⟩ := genError_is_wrapped env.dbx e hsdk hgen
  have hexp2 : isCredentialExpired (dropPool st).cm now = true := by
    rw [dropPool_cm]
    exact hexp
  have hg : get_credentials (dropPool st).cm env.dbx now reqId =
      ⟨.error e, (dropPool st).cm, 1⟩ :=
    get_credentials_gen_error _ env.dbx now reqId e hexp2 hgen
  have hE : ensurePool st env now reqId =
      (.error ⟨500, "Failed to create database connection pool: " ++ e.toText⟩,
       dropPool st, 1) := by
    unfold ensurePool
    rw [hrec]
    simp only [if_true]
    simp only [create_shared_pool, hg]
  rw [get_connection_ensure_error_path st env now reqId uid use _ _ _ hE]
  have hcred : pyIn "credential"
      (pyLower (HTTPError.toText
        ⟨500, "Failed to create database connection pool: " ++ e.toText⟩)) = true := by
    rw [hm]
    unfold HTTPError.toText wrapGenError
    apply pyIn_pyLower_append_right
    apply pyIn_pyLower_append_right
    apply pyIn_pyLower_append_right
    apply pyIn_pyLower_append_left
    decide
  have hor : (pyIn "authentication"
      (pyLower (HTTPError.toText
        ⟨500, "Failed to create database connection pool: " ++ e.toText⟩)) ||
      pyIn "credential"
      (pyLower (HTTPError.toText
        ⟨500, "Failed to create database connection pool: " ++ e.toText⟩))) = true := by
    rw [hcred]
    simp
  unfold handleConnError
  rw [hor]
  simp only [if_true]
  refine ⟨⟨_, rfl, ?_⟩, ?_, ?_, ?_⟩
  · have : ("Database connection failed: " ++ HTTPError.toText
        ⟨500, "Failed to create database connection pool: " ++ e.toText⟩) =
        "Database connection failed: " ++ HTTPError.toText
        ⟨500, "Failed to create database connection pool: " ++ e.toText⟩ := rfl
    exact pyIn_pyLower_append_right _ _ _ hcred
  · unfold finallyPut
    simp [dropPool_cm, invalidate_clears]
  · unfold finallyPut
    simp [dropPool_pool]
  · unfold finallyPut
    have hc2 : ({ dropPool st with
        cm := (invalidate_credentials (dropPool st).cm none).2 } : SCPState).pool = none →
        ({ dropPool st with
        cm := (invalidate_credentials (dropPool st).cm none).2 } : SCPState).pool_created_time = none := by
      intro _
      simp [dropPool_time st hcons]
    simp [dropPool_time _ hc2]

/-- C10 witness: with an empty cache and no pool, an upstream failure
("boom") during the rebuild yields a propagated error mentioning
"credential" and leaves cache and pool cleared. -/
theorem C10_witness :
    (∃ d, (get_connection (SCPState.init ⟨none, 1800⟩ 1 5)
        ⟨⟨true, "inst", "user", .error "boom"⟩, none⟩ 0 "r" .ok none).result =
          .error ⟨500, d⟩ ∧ pyIn "credential" (pyLower d) = true) ∧
    (get_connection (SCPState.init ⟨none, 1800⟩ 1 5)
        ⟨⟨true, "inst", "user", .error "boom"⟩, none⟩ 0 "r" .ok none).state.cm.cached_credential
      = none ∧
    (get_connection (SCPState.init ⟨none, 1800⟩ 1 5)
        ⟨⟨true, "inst", "user", .error "boom"⟩, none⟩ 0 "r" .ok none).state.pool = none ∧
    (get_connection (SCPState.init ⟨none, 1800⟩ 1 5)
        ⟨⟨true, "inst", "user", .error "boom"⟩, none⟩ 0 "r" .ok none).state.pool_created_time
      = none :=
  C10_source_failure_during_rebuild (SCPState.init ⟨none, 1800⟩ 1 5)
    ⟨⟨true, "inst", "user", .error "boom"⟩, none⟩ 0 "r" none .ok
    ⟨500, "Failed to generate database credentials: boom"⟩
    rfl rfl rfl rfl (fun _ => rfl)
